import Mathlib

/-!
Shallow embedding of cosmic-ext-quake-terminal (src/app.rs, src/wayland.rs,
src/process.rs): the toggle state machine, the Wayland bridge's toplevel
matching and edge detection, and the terminal-command argument resolution.
Side effects (spawn, channel sends, signals, reaps, protocol requests) are
modelled as explicit lists of effect values returned alongside the new state.
-/

/-- Visibility states of the toggle state machine (enum ToggleState, src/app.rs). -/
inductive ToggleState
  | Idle
  | WaitingForWindow
  | Visible
  | Hidden
  deriving DecidableEq

/-- Events produced by the Wayland bridge (enum ToplevelEvent, src/wayland.rs).
In the source, Ready carries a WaylandController value; receiving it makes a
controller available, which the app model records as a Boolean flag. -/
inductive ToplevelEvent
  | Ready
  | Found
  | Minimized
  | Activated
  | Closed
  deriving DecidableEq

/-- Commands sent from the app to the bridge (enum WaylandCommand, src/wayland.rs). -/
inductive WaylandCommand
  | Minimize
  | Activate
  deriving DecidableEq

/-- The fields of a toplevel's info that the bridge reads
(cosmic_client_toolkit ToplevelInfo): its app_id, the optional cosmic
handle, and whether its state set contains the Minimized / Activated flags.
Protocol handles are modelled as natural numbers. -/
structure ToplevelInfo where
  app_id : String
  cosmic_toplevel : Option Nat
  minimized : Bool
  activated : Bool
  deriving DecidableEq

/-- The fields of struct WaylandState (src/wayland.rs) that drive matching,
edge detection and command handling. toplevel_manager is true when the
optional toplevel-management protocol was bound; seat is true when a wl_seat
is known. Foreign and cosmic toplevel handles are modelled as Nat. -/
structure WaylandState where
  target_app_id : String
  our_handle : Option Nat
  our_foreign_handle : Option Nat
  last_minimized : Option Bool
  toplevel_manager : Bool
  seat : Bool
  deriving DecidableEq

/-- WaylandState::new_toplevel (src/wayland.rs lines 124-139): look up the
toplevel's info; if its app_id equals the target, store both handles, reset
last_minimized and emit Found. A none info lookup does nothing. -/
def new_toplevel (s : WaylandState) (toplevel : Nat) (info : Option ToplevelInfo) :
    WaylandState × List ToplevelEvent :=
  match info with
  | none => (s, [])
  | some i =>
      if i.app_id = s.target_app_id then
        ({ s with
            our_handle := i.cosmic_toplevel,
            our_foreign_handle := some toplevel,
            last_minimized := none },
          [ToplevelEvent.Found])
      else (s, [])

/-- WaylandState::update_toplevel (src/wayland.rs lines 141-176): ignore any
toplevel other than the adopted one; otherwise refresh our_handle, compute
is_minimized from the state flags, and only on a change of that flag record
it and emit Minimized, or Activated when the Activated flag is set. -/
def update_toplevel (s : WaylandState) (toplevel : Nat) (info : Option ToplevelInfo) :
    WaylandState × List ToplevelEvent :=
  if s.our_foreign_handle = some toplevel then
    match info with
    | none => (s, [])
    | some i =>
        if s.last_minimized ≠ some i.minimized then
          if i.minimized then
            ({ s with our_handle := i.cosmic_toplevel, last_minimized := some i.minimized },
              [ToplevelEvent.Minimized])
          else if i.activated then
            ({ s with our_handle := i.cosmic_toplevel, last_minimized := some i.minimized },
              [ToplevelEvent.Activated])
          else
            ({ s with our_handle := i.cosmic_toplevel, last_minimized := some i.minimized },
              [])
        else ({ s with our_handle := i.cosmic_toplevel }, [])
  else (s, [])

/-- WaylandState::toplevel_closed (src/wayland.rs lines 178-195): when the
adopted toplevel closes, clear both handles and last_minimized and emit
Closed; closures of other toplevels are ignored. -/
def toplevel_closed (s : WaylandState) (toplevel : Nat) :
    WaylandState × List ToplevelEvent :=
  if s.our_foreign_handle = some toplevel then
    ({ s with our_handle := none, our_foreign_handle := none, last_minimized := none },
      [ToplevelEvent.Closed])
  else (s, [])

/-- Protocol requests the bridge can issue on the management protocol. -/
inductive ProtocolAction
  | SetMinimized (handle : Nat)
  | UnsetMinimized (handle : Nat)
  | ActivateOnSeat (handle : Nat)
  deriving DecidableEq

/-- handle_command_inner (src/wayland.rs lines 284-307): with no adopted
handle or no management protocol, a command is a logged no-op; Minimize
issues set_minimized; Activate issues unset_minimized and, when a seat is
known, activate on that seat. -/
def handle_command_inner (s : WaylandState) (cmd : WaylandCommand) : List ProtocolAction :=
  match s.our_handle with
  | none => []
  | some handle =>
      if s.toplevel_manager then
        match cmd with
        | WaylandCommand.Minimize => [ProtocolAction.SetMinimized handle]
        | WaylandCommand.Activate =>
            ProtocolAction.UnsetMinimized handle ::
              (if s.seat then [ProtocolAction.ActivateOnSeat handle] else [])
      else []

/-- struct SpawnResult (src/process.rs). -/
structure SpawnResult where
  pid : Nat
  app_id : String
  deriving DecidableEq

/-- The constant QUAKE_APP_ID (src/process.rs). -/
def QUAKE_APP_ID : String := "cosmic-ext-quake-terminal"

/-- Characters after the last slash of a character list: the embedding of
the source's command.rsplit('/').next().unwrap_or(command), which yields the
part of the command after its final slash (the whole command when it has no
slash). -/
def after_last_slash (cs : List Char) : List Char :=
  cs.foldl (fun acc c => if c = '/' then [] else acc ++ [c]) []

/-- get_class_args (src/process.rs lines 43-69): take the binary name after
the last slash of the command; ghostty gets --gtk-single-instance=false and
its own default app_id; foot gets --app-id=QUAKE_APP_ID; the named
--class terminals and every other binary get --class QUAKE_APP_ID. -/
def get_class_args (command : String) : List String × String :=
  let binary := String.mk (after_last_slash command.data)
  match binary with
  | "ghostty" => (["--gtk-single-instance=false"], "com.mitchellh.ghostty")
  | "foot" => (["--app-id=" ++ QUAKE_APP_ID], QUAKE_APP_ID)
  | "cosmic-term" | "alacritty" | "kitty" | "wezterm" =>
      (["--class", QUAKE_APP_ID], QUAKE_APP_ID)
  | _ => (["--class", QUAKE_APP_ID], QUAKE_APP_ID)

/-- get_app_id (src/process.rs lines 39-41): the app_id component of
get_class_args. -/
def get_app_id (command : String) : String :=
  (get_class_args command).2

/-- spawn_terminal (src/process.rs lines 11-36): the OS outcome is modelled
by an oracle holding the child pid on success and none on launch failure;
on success the pid is returned with the expected app_id, on failure none.
The extra user args do not affect the result. -/
def spawn_terminal (command : String) (_args : List String) (os_pid : Option Nat) :
    Option SpawnResult :=
  match os_pid with
  | some pid => some ⟨pid, (get_class_args command).2⟩
  | none => none

/-- Observable side effects of the app's update logic (src/app.rs): a spawn
attempt, a Minimize/Activate command sent through the controller, a SIGTERM
sent to a pid, and a WNOHANG waitpid reap of a pid. -/
inductive Effect
  | SpawnAttempt
  | SendMinimize
  | SendActivate
  | KillSigterm (pid : Nat)
  | WaitpidNohang (pid : Nat)
  deriving DecidableEq

/-- The fields of struct QuakeTerminal (src/app.rs) that the toggle logic
reads and writes: the visibility state, the tracked pid (the source's
Option of an AtomicU32 cell, modelled by its value), the target app id, and
whether a WaylandController has been received. -/
structure AppState where
  state : ToggleState
  terminal_pid : Option Nat
  terminal_app_id : String
  wayland_controller : Bool
  deriving DecidableEq

/-- QuakeTerminal::handle_toggle (src/app.rs lines 368-401). In Idle a spawn
is attempted (its result passed in as the oracle spawn_result); on success
the pid is tracked, the app id updated and the state moves to
WaitingForWindow, on failure nothing changes. WaitingForWindow logs only.
Visible sends Minimize through the controller when one exists and moves to
Hidden; Hidden symmetrically sends Activate and moves to Visible. -/
def handle_toggle (s : AppState) (spawn_result : Option SpawnResult) :
    AppState × List Effect :=
  match s.state with
  | ToggleState.Idle =>
      match spawn_result with
      | some r =>
          ({ s with
              terminal_pid := some r.pid,
              terminal_app_id := r.app_id,
              state := ToggleState.WaitingForWindow },
            [Effect.SpawnAttempt])
      | none => (s, [Effect.SpawnAttempt])
  | ToggleState.WaitingForWindow => (s, [])
  | ToggleState.Visible =>
      ({ s with state := ToggleState.Hidden },
        if s.wayland_controller then [Effect.SendMinimize] else [])
  | ToggleState.Hidden =>
      ({ s with state := ToggleState.Visible },
        if s.wayland_controller then [Effect.SendActivate] else [])

/-- QuakeTerminal::handle_toplevel_event (src/app.rs lines 403-439).
Ready stores the controller; Found moves WaitingForWindow to Visible;
Minimized/Activated set Hidden/Visible only when a process is tracked;
Closed resets to Idle and, when a pid was tracked, takes it, sends SIGTERM
and reaps with WNOHANG. -/
def handle_toplevel_event (s : AppState) (event : ToplevelEvent) :
    AppState × List Effect :=
  match event with
  | ToplevelEvent.Ready => ({ s with wayland_controller := true }, [])
  | ToplevelEvent.Found =>
      (if s.state = ToggleState.WaitingForWindow
        then { s with state := ToggleState.Visible } else s, [])
  | ToplevelEvent.Minimized =>
      (if s.terminal_pid.isSome then { s with state := ToggleState.Hidden } else s, [])
  | ToplevelEvent.Activated =>
      (if s.terminal_pid.isSome then { s with state := ToggleState.Visible } else s, [])
  | ToplevelEvent.Closed =>
      match s.terminal_pid with
      | some pid =>
          ({ s with state := ToggleState.Idle, terminal_pid := none },
            [Effect.KillSigterm pid, Effect.WaitpidNohang pid])
      | none => ({ s with state := ToggleState.Idle, terminal_pid := none }, [])

/-- Message::TerminalExited handling in QuakeTerminal::update (src/app.rs
lines 162-175): take the tracked pid (clearing it) and reap it with
WNOHANG; the visibility state is deliberately left untouched. -/
def handle_terminal_exited (s : AppState) : AppState × List Effect :=
  match s.terminal_pid with
  | some pid => ({ s with terminal_pid := none }, [Effect.WaitpidNohang pid])
  | none => (s, [])

/-- Process a list of Toggle commands, threading the state and concatenating
the effects; each list entry is the spawn oracle for that step. -/
def run_toggles (s : AppState) (spawn_results : List (Option SpawnResult)) :
    AppState × List Effect :=
  match spawn_results with
  | [] => (s, [])
  | r :: rs =>
      ((run_toggles (handle_toggle s r).1 rs).1,
        (handle_toggle s r).2 ++ (run_toggles (handle_toggle s r).1 rs).2)

/-- Process a list of toplevel events, threading the state and concatenating
the effects. -/
def run_events (s : AppState) (events : List ToplevelEvent) :
    AppState × List Effect :=
  match events with
  | [] => (s, [])
  | e :: es =>
      ((run_events (handle_toplevel_event s e).1 es).1,
        (handle_toplevel_event s e).2 ++ (run_events (handle_toplevel_event s e).1 es).2)

/-- Claim C1 counterexample: with a toplevel currently adopted (handle 1), a
second toplevel (handle 2) carrying the same target identifier is adopted
too: the stored handle switches to 2 and Found is emitted again, against
the claim that adoption requires that no toplevel is currently adopted. -/
theorem C1_counterexample :
    ((⟨"cosmic-ext-quake-terminal", some 1, some 1, some false, true, true⟩ :
        WaylandState).our_foreign_handle = some 1) ∧
    (new_toplevel ⟨"cosmic-ext-quake-terminal", some 1, some 1, some false, true, true⟩ 2
        (some ⟨"cosmic-ext-quake-terminal", some 2, false, true⟩)).1.our_foreign_handle =
      some 2 ∧
    (new_toplevel ⟨"cosmic-ext-quake-terminal", some 1, some 1, some false, true, true⟩ 2
        (some ⟨"cosmic-ext-quake-terminal", some 2, false, true⟩)).2 =
      [ToplevelEvent.Found] := by
  decide

/-- Claim C1 (corrected): an incoming toplevel whose identifier equals the
target is adopted (handle stored, last-minimized tracking reset, Found
emitted) regardless of whether a toplevel is already adopted — a later
match replaces the earlier one; a non-matching toplevel is never adopted;
and updates to any toplevel other than the currently adopted one (here the
replaced first toplevel h0) are ignored. -/
theorem C1_adoption_replaces (a b : String) (h0 : Nat) (oh ic ic2 : Option Nat)
    (lm : Option Bool) (mgr se mz az mz2 az2 : Bool) (j : Option ToplevelInfo)
    (hne : b ≠ a) :
    new_toplevel ⟨a, oh, some h0, lm, mgr, se⟩ (h0 + 1) (some ⟨a, ic, mz, az⟩) =
      (⟨a, ic, some (h0 + 1), none, mgr, se⟩, [ToplevelEvent.Found]) ∧
    new_toplevel ⟨a, oh, some h0, lm, mgr, se⟩ (h0 + 1) (some ⟨b, ic2, mz2, az2⟩) =
      (⟨a, oh, some h0, lm, mgr, se⟩, []) ∧
    update_toplevel ⟨a, ic, some (h0 + 1), none, mgr, se⟩ h0 j =
      (⟨a, ic, some (h0 + 1), none, mgr, se⟩, []) := by
  refine ⟨?_, ?_, ?_⟩
  · simp [new_toplevel]
  · simp [new_toplevel, hne]
  · unfold update_toplevel
    split
    next h => exact absurd (Option.some.inj h) (Nat.succ_ne_self h0)
    next => rfl

/-- Claim C1 witness: the amended behavior at a concrete adopted state,
matching second toplevel, non-matching toplevel, and stale update. -/
theorem C1_adoption_replaces_witness :
    new_toplevel ⟨"cosmic-ext-quake-terminal", some 1, some 1, some false, true, true⟩ 2
        (some ⟨"cosmic-ext-quake-terminal", some 2, false, true⟩) =
      (⟨"cosmic-ext-quake-terminal", some 2, some 2, none, true, true⟩,
        [ToplevelEvent.Found]) ∧
    new_toplevel ⟨"cosmic-ext-quake-terminal", some 1, some 1, some false, true, true⟩ 2
        (some ⟨"firefox", some 3, false, true⟩) =
      (⟨"cosmic-ext-quake-terminal", some 1, some 1, some false, true, true⟩, []) ∧
    update_toplevel ⟨"cosmic-ext-quake-terminal", some 2, some 2, none, true, true⟩ 1 none =
      (⟨"cosmic-ext-quake-terminal", some 2, some 2, none, true, true⟩, []) :=
  C1_adoption_replaces "cosmic-ext-quake-terminal" "firefox" 1 (some 1) (some 2) (some 3)
    (some false) true true false true false true none (by decide)

/-- Claim C2 counterexample: in Visible with tracked pid 100, processing
process-exited and then Closed performs no SIGTERM and no reap at the
Closed step (its effect list is empty), because process-exited already
cleared the tracked pid; the claim asserts a SIGTERM on pid 100 there. -/
theorem C2_counterexample :
    (handle_toplevel_event
        (handle_terminal_exited
          ⟨ToggleState.Visible, some 100, "cosmic-ext-quake-terminal", true⟩).1
        ToplevelEvent.Closed).2 = [] ∧
    Effect.KillSigterm 100 ∉
      (handle_toplevel_event
        (handle_terminal_exited
          ⟨ToggleState.Visible, some 100, "cosmic-ext-quake-terminal", true⟩).1
        ToplevelEvent.Closed).2 := by
  decide

/-- Claim C2 (corrected): in Visible with tracked pid p, process-exited
keeps the state Visible, clears the tracked process and performs the
non-blocking reap of p; the later Closed then moves the state to Idle with
the tracked process still cleared and performs no further effect — in
particular no SIGTERM and no second reap, since the pid was already taken
by the process-exited handling. -/
theorem C2_exit_then_closed (p : Nat) (app : String) (wc : Bool) :
    handle_terminal_exited ⟨ToggleState.Visible, some p, app, wc⟩ =
      (⟨ToggleState.Visible, none, app, wc⟩, [Effect.WaitpidNohang p]) ∧
    handle_toplevel_event
        (handle_terminal_exited ⟨ToggleState.Visible, some p, app, wc⟩).1
        ToplevelEvent.Closed =
      (⟨ToggleState.Idle, none, app, wc⟩, []) :=
  ⟨rfl, rfl⟩

/-- Claim C3 (confirmed): processing Closed yields state Idle with the
tracked process cleared, from every prior state and tracked-process
contents; and from Idle with no tracked process it is a safe no-op (the
state is returned unchanged with no effects). -/
theorem C3_closed_resets (s : AppState) :
    (handle_toplevel_event s ToplevelEvent.Closed).1.state = ToggleState.Idle ∧
    (handle_toplevel_event s ToplevelEvent.Closed).1.terminal_pid = none ∧
    handle_toplevel_event
        { s with state := ToggleState.Idle, terminal_pid := none } ToplevelEvent.Closed =
      ({ s with state := ToggleState.Idle, terminal_pid := none }, []) := by
  obtain ⟨st, pid, app, wc⟩ := s
  cases pid <;> exact ⟨rfl, rfl, rfl⟩

/-- Claim C4 (confirmed): for every state of the machine, processing a
process-exited notification leaves the ToggleState exactly as it was, and
its only effects are non-blocking reaps. -/
theorem C4_exit_preserves_state (s : AppState) :
    (handle_terminal_exited s).1.state = s.state ∧
    ((handle_terminal_exited s).2.all fun e =>
      match e with
      | Effect.WaitpidNohang _ => true
      | _ => false) = true := by
  obtain ⟨st, pid, app, wc⟩ := s
  cases pid <;> exact ⟨rfl, rfl⟩

/-- Claim C6 (confirmed): on an update of the adopted toplevel, an event is
emitted only when the computed is_minimized flag differs from the last
observed value, and an update whose minimized flag equals the previously
observed value emits no event at all. -/
theorem C6_edge_detection (s : WaylandState) (t : Nat) (i : ToplevelInfo) :
    ((update_toplevel s t (some i)).2 = [] ∨ s.last_minimized ≠ some i.minimized) ∧
    (update_toplevel { s with last_minimized := some i.minimized } t (some i)).2 = [] := by
  constructor
  · by_cases h : s.last_minimized = some i.minimized
    · left
      unfold update_toplevel
      split
      · simp [h]
      · rfl
    · right
      exact h
  · unfold update_toplevel
    split
    · simp
    · rfl

/-- Claim C7 (confirmed): Toggle in Visible always moves the machine to
Hidden, sending Minimize exactly when a controller exists, and Toggle in
Hidden always moves to Visible, sending Activate when a controller exists;
and when the management capability is absent the bridge turns any command
into a no-op (no protocol action), so the transition happens even though
the command has no physical effect. -/
theorem C7_toggle_transitions (s : AppState) (w : WaylandState)
    (r : Option SpawnResult) (cmd : WaylandCommand) :
    (handle_toggle { s with state := ToggleState.Visible } r).1.state = ToggleState.Hidden ∧
    (handle_toggle { s with state := ToggleState.Visible } r).2 =
      (if s.wayland_controller then [Effect.SendMinimize] else []) ∧
    (handle_toggle { s with state := ToggleState.Hidden } r).1.state = ToggleState.Visible ∧
    (handle_toggle { s with state := ToggleState.Hidden } r).2 =
      (if s.wayland_controller then [Effect.SendActivate] else []) ∧
    handle_command_inner { w with toplevel_manager := false } cmd = [] := by
  obtain ⟨st, pid, app, wc⟩ := s
  obtain ⟨ta, oh, ofh, lm, mgr, se⟩ := w
  refine ⟨rfl, rfl, rfl, rfl, ?_⟩
  cases cmd <;> cases oh <;> rfl

/-- Claim C8 (confirmed): Minimized is idempotent on the machine state:
processing it twice gives the same state as once, and with a tracked
process one application already yields Hidden; symmetrically Activated is
idempotent and yields Visible with a tracked process. -/
theorem C8_minimize_activate_idempotent (s : AppState) (p : Nat) :
    (handle_toplevel_event
        (handle_toplevel_event s ToplevelEvent.Minimized).1 ToplevelEvent.Minimized).1 =
      (handle_toplevel_event s ToplevelEvent.Minimized).1 ∧
    (handle_toplevel_event
        { s with terminal_pid := some p } ToplevelEvent.Minimized).1.state =
      ToggleState.Hidden ∧
    (handle_toplevel_event
        (handle_toplevel_event s ToplevelEvent.Activated).1 ToplevelEvent.Activated).1 =
      (handle_toplevel_event s ToplevelEvent.Activated).1 ∧
    (handle_toplevel_event
        { s with terminal_pid := some p } ToplevelEvent.Activated).1.state =
      ToggleState.Visible := by
  obtain ⟨st, pid, app, wc⟩ := s
  cases pid <;> exact ⟨rfl, rfl, rfl, rfl⟩

/-- Helper: from Idle, a run of toggles whose spawn attempts all fail
leaves the state untouched and logs one spawn attempt per toggle. -/
theorem run_toggles_all_fail (s : AppState) (rs : List (Option SpawnResult))
    (hstate : s.state = ToggleState.Idle)
    (hfail : ∀ r ∈ rs, r = none) :
    run_toggles s rs = (s, List.replicate rs.length Effect.SpawnAttempt) := by
  induction rs generalizing s with
  | nil => rfl
  | cons r rs ih =>
      have hr : r = none := hfail r (List.mem_cons_self r rs)
      subst hr
      have hstep : handle_toggle s none = (s, [Effect.SpawnAttempt]) := by
        unfold handle_toggle
        rw [hstate]
      simp only [run_toggles, hstep, List.length_cons]
      rw [ih s hstate (fun x hx => hfail x (List.mem_cons_of_mem _ hx))]
      simp [List.replicate_succ]

/-- Claim C5 (confirmed): from Idle with no tracked process, any sequence
of Toggle commands all of whose spawn attempts fail leaves the state Idle,
creates no tracked process, and sends no Minimize or Activate command: the
only effects produced are the spawn attempts themselves. -/
theorem C5_idle_spawn_failures (s : AppState) (rs : List (Option SpawnResult))
    (hstate : s.state = ToggleState.Idle)
    (hpid : s.terminal_pid = none)
    (hfail : ∀ r ∈ rs, r = none) :
    (run_toggles s rs).1.state = ToggleState.Idle ∧
    (run_toggles s rs).1.terminal_pid = none ∧
    ((run_toggles s rs).2.all fun e =>
      match e with
      | Effect.SpawnAttempt => true
      | _ => false) = true := by
  rw [run_toggles_all_fail s rs hstate hfail]
  refine ⟨hstate, hpid, ?_⟩
  simp only [List.all_eq_true]
  intro e he
  rw [List.eq_of_mem_replicate he]

/-- Claim C5 witness: two failing toggles from a concrete Idle state. -/
theorem C5_idle_spawn_failures_witness :
    (run_toggles ⟨ToggleState.Idle, none, "cosmic-ext-quake-terminal", false⟩
        [none, none]).1.state = ToggleState.Idle ∧
    (run_toggles ⟨ToggleState.Idle, none, "cosmic-ext-quake-terminal", false⟩
        [none, none]).1.terminal_pid = none ∧
    ((run_toggles ⟨ToggleState.Idle, none, "cosmic-ext-quake-terminal", false⟩
        [none, none]).2.all fun e =>
      match e with
      | Effect.SpawnAttempt => true
      | _ => false) = true :=
  C5_idle_spawn_failures _ _ rfl rfl (by decide)

/-- Claim C9 counterexample: the command "/usr/bin/ghostty" is none of the
named commands (foot, ghostty, cosmic-term, alacritty, kitty, wezterm) as
a string, yet get_app_id gives it ghostty's default identifier rather than
the fixed identifier, and no --class argument is injected: the code
classifies commands by the binary name after the last slash. -/
theorem C9_counterexample :
    ("/usr/bin/ghostty" : String) ≠ "ghostty" ∧
    ("/usr/bin/ghostty" : String) ≠ "foot" ∧
    get_app_id "/usr/bin/ghostty" = "com.mitchellh.ghostty" ∧
    get_app_id "/usr/bin/ghostty" ≠ QUAKE_APP_ID ∧
    (get_class_args "/usr/bin/ghostty").1 = ["--gtk-single-instance=false"] := by
  decide

/-- Claim C9 (corrected): get_app_id is pure and classifies its argument by
the binary name after the last slash: foot yields the fixed identifier,
ghostty yields ghostty's fixed default identifier, the four --class
terminals yield the fixed identifier, and every command whose basename is
neither ghostty nor foot gets the fixed identifier with --class injected. -/
theorem C9_resolve_app_id (cmd : String)
    (hg : String.mk (after_last_slash cmd.data) ≠ "ghostty")
    (hf : String.mk (after_last_slash cmd.data) ≠ "foot") :
    get_app_id "foot" = QUAKE_APP_ID ∧
    get_app_id "ghostty" = "com.mitchellh.ghostty" ∧
    get_app_id "cosmic-term" = QUAKE_APP_ID ∧
    get_app_id "alacritty" = QUAKE_APP_ID ∧
    get_app_id "kitty" = QUAKE_APP_ID ∧
    get_app_id "wezterm" = QUAKE_APP_ID ∧
    get_class_args cmd = (["--class", QUAKE_APP_ID], QUAKE_APP_ID) := by
  refine ⟨by decide, by decide, by decide, by decide, by decide, by decide, ?_⟩
  simp only [get_class_args]
  split <;> simp_all

/-- Claim C9 witness: the amended classification at the named terminals and
at the concrete unlisted command xterm. -/
theorem C9_resolve_app_id_witness :
    get_app_id "foot" = QUAKE_APP_ID ∧
    get_app_id "ghostty" = "com.mitchellh.ghostty" ∧
    get_app_id "cosmic-term" = QUAKE_APP_ID ∧
    get_app_id "alacritty" = QUAKE_APP_ID ∧
    get_app_id "kitty" = QUAKE_APP_ID ∧
    get_app_id "wezterm" = QUAKE_APP_ID ∧
    get_class_args "xterm" = (["--class", QUAKE_APP_ID], QUAKE_APP_ID) :=
  C9_resolve_app_id "xterm" (by decide) (by decide)

/-- Helper: processing a process-exited notification always leaves the
tracked pid cleared. -/
theorem exited_pid_cleared (s : AppState) :
    (handle_terminal_exited s).1.terminal_pid = none := by
  obtain ⟨st, pid, app, wc⟩ := s
  cases pid <;> rfl

/-- Helper: with no tracked process, a run of Minimized/Activated events
changes nothing and produces no effect. -/
theorem run_events_gate_closed (t : AppState) (events : List ToplevelEvent)
    (ht : t.terminal_pid = none)
    (hev : ∀ e ∈ events, e = ToplevelEvent.Minimized ∨ e = ToplevelEvent.Activated) :
    run_events t events = (t, []) := by
  induction events with
  | nil => rfl
  | cons e es ih =>
      have hstep : handle_toplevel_event t e = (t, []) := by
        rcases hev e (List.mem_cons_self e es) with h | h <;> subst h <;>
          simp [handle_toplevel_event, ht]
      simp only [run_events, hstep]
      rw [ih (fun x hx => hev x (List.mem_cons_of_mem _ hx))]
      rfl

/-- Claim C10 (confirmed): after a process-exited notification the tracked
process is cleared, and from the resulting state any sequence of Minimized
or Activated events leaves the whole state unchanged (the
with-tracked-process gate fails) and produces no effect. -/
theorem C10_exit_disables_gate (s : AppState) (events : List ToplevelEvent)
    (hev : ∀ e ∈ events, e = ToplevelEvent.Minimized ∨ e = ToplevelEvent.Activated) :
    (handle_terminal_exited s).1.terminal_pid = none ∧
    run_events (handle_terminal_exited s).1 events = ((handle_terminal_exited s).1, []) :=
  ⟨exited_pid_cleared s,
    run_events_gate_closed _ events (exited_pid_cleared s) hev⟩

/-- Claim C10 witness: a concrete Visible state with pid 100, followed by a
Minimized and an Activated event. -/
theorem C10_exit_disables_gate_witness :
    (handle_terminal_exited
        ⟨ToggleState.Visible, some 100, "cosmic-ext-quake-terminal", true⟩).1.terminal_pid =
      none ∧
    run_events
        (handle_terminal_exited
          ⟨ToggleState.Visible, some 100, "cosmic-ext-quake-terminal", true⟩).1
        [ToplevelEvent.Minimized, ToplevelEvent.Activated] =
      ((handle_terminal_exited
          ⟨ToggleState.Visible, some 100, "cosmic-ext-quake-terminal", true⟩).1, []) :=
  C10_exit_disables_gate _ _ (by decide)
